import Mathlib

/-!
Verification of the cbb-rf-online-addon MSH/ANI codec layer.

The definitions below are a shallow embedding of the codec logic in
`cbb_rf_online_addon/msh.py` and `cbb_rf_online_addon/ani.py`.  Python floats
are modelled as rationals (`ℚ`): every operation the embedded code performs on
them (addition, subtraction, comparison against a tolerance) is exact at the
granularity the verified properties talk about.  Fixed-width machine integers
read with `read_ushort`/`read_uint` are modelled as `Nat`.
-/

namespace Spec2Proof

/-! ## Frame/tick scaling (ani.py) -/

/-- `FRAME_SCALE = 160`, ani.py line 17: the number of ticks per frame. -/
def FRAME_SCALE : Nat := 160

/-- ani.py lines 221, 266, 281, 296: `frame = scaled_frame / FRAME_SCALE`
(true division, so the result is modelled as a rational). -/
def decodeTick (t : Nat) : ℚ := (t : ℚ) / (FRAME_SCALE : ℚ)

/-- ani.py lines 687, 694, 701, 708: `writer.write_uint(frame_number*FRAME_SCALE)`. -/
def encodeFrame (n : Nat) : Nat := n * FRAME_SCALE

/-! ## MESH08 vertex weight import (msh.py, `import_msh`, lines 568-578) -/

/-- `CBB_OT_ImportMSH.WEIGHT_TOLERANCE = 1e-05`, msh.py line 58. -/
def WEIGHT_TOLERANCE : ℚ := 1 / 100000

/-- msh.py lines 568-578: the three stored weights are extended with an implied
fourth weight `1 - s` when `s = w0+w1+w2 < 1 - WEIGHT_TOLERANCE`, then padded
with zeros to length 4, and finally replaced by `[1,0,0,0]` when the padded
list sums below `1e-6`. -/
def mesh08ImportWeights (w0 w1 w2 : ℚ) : List ℚ :=
  let s : ℚ := w0 + w1 + w2
  let finalWeights : List ℚ :=
    if s < 1 - WEIGHT_TOLERANCE then [w0, w1, w2, 1 - s] else [w0, w1, w2]
  let finalWeights : List ℚ :=
    finalWeights ++ List.replicate (4 - finalWeights.length) 0
  if finalWeights.sum < 1 / 1000000 then [1, 0, 0, 0] else finalWeights

/-- msh.py lines 1027-1032 (`__add_object_data`, standard-format export path):
the fourth exported weight is `1 - weight_sum` when
`weight_sum < 1 - WEIGHT_TOLERANCE`, and `0` otherwise. -/
def standardExportWeights (w0 w1 w2 : ℚ) : ℚ × ℚ × ℚ × ℚ :=
  let weightSum : ℚ := w0 + w1 + w2
  if weightSum < 1 - WEIGHT_TOLERANCE then (w0, w1, w2, 1 - weightSum)
  else (w0, w1, w2, 0)

/-! ## MSH export splitting (msh.py, `__export_mesh`, lines 1281-1361) -/

/-- msh.py line 1315: `split_object_name = sub_object_base_name if split_number == 0
else f"{sub_object_base_name}_{split_number}"`. -/
def splitObjectName (base : String) (k : Nat) : String :=
  if k = 0 then base else base ++ "_" ++ toString k

/-- msh.py line 1312: `maximum_split_amount = math.ceil(polygon_indices_amount /
65535.0)`, as the exact natural-number ceiling. -/
def maximumSplitAmount (indicesAmount : Nat) : Nat :=
  (indicesAmount + 65534) / 65535

/-- msh.py lines 1326-1333: chunk `k` takes the triangles with index
`21845 * k` up to `21845 * (k + 1)` (exclusive), stopping at the end of the
group's triangle list. -/
def splitChunk (tris : List α) (k : Nat) : List α :=
  (tris.drop (21845 * k)).take 21845

/-- msh.py lines 1282-1361: one material group's triangle list is emitted as a
single object carrying the base name when `len(group_exporter_polygons) * 3 ≤
65535` (line 1292), and otherwise as `maximumSplitAmount` chunk objects (lines
1309-1361), chunk `k` holding `splitChunk tris k` under name
`splitObjectName base k`. -/
def exportMeshChunks (tris : List α) (base : String) : List (String × List α) :=
  if tris.length * 3 ≤ 65535 then [(base, tris)]
  else (List.range (maximumSplitAmount (tris.length * 3))).map
    (fun k => (splitObjectName base k, splitChunk tris k))

/-! ## Legacy mesh unwelding (msh.py, `import_msh`, lines 673-697) -/

/-- One legacy triangle record as read by msh.py lines 629-642: three base
vertex indices (`base_triangles`), three per-corner normals
(`base_triangle_normals`) and three per-corner UVs (`base_triangle_uvs`). -/
structure LegacyTriangle (N U : Type _) where
  i0 : Nat
  i1 : Nat
  i2 : Nat
  n0 : N
  n1 : N
  n2 : N
  uv0 : U
  uv1 : U
  uv2 : U
deriving DecidableEq

/-- The `vertices`/`normals`/`uvs`/`triangles` accumulators of msh.py lines
552-557, as filled by the legacy reconstruction loop. -/
structure UnweldState (P N U : Type _) where
  vertices : List P
  normals : List N
  uvs : List U
  triangles : List (Nat × Nat × Nat)
deriving DecidableEq

/-- msh.py lines 673-692, one iteration of `for i, tri in enumerate(base_triangles)`:
each of the three corners appends a brand-new output vertex (position
`base_vertices[vertex_index]`, the corner's normal, the corner's UV), then the
triangle `(vertices_len, vertices_len+1, vertices_len+2)` is appended. -/
def unweldStep [Inhabited P] (baseVertices : List P)
    (st : UnweldState P N U) (tri : LegacyTriangle N U) : UnweldState P N U :=
  let verticesLen := st.vertices.length
  { vertices := st.vertices ++
      [baseVertices.getD tri.i0 default, baseVertices.getD tri.i1 default,
        baseVertices.getD tri.i2 default],
    normals := st.normals ++ [tri.n0, tri.n1, tri.n2],
    uvs := st.uvs ++ [tri.uv0, tri.uv1, tri.uv2],
    triangles := st.triangles ++ [(verticesLen, verticesLen + 1, verticesLen + 2)] }

/-- msh.py lines 673-692: the whole legacy reconstruction loop, starting from
the empty accumulators of lines 552-557. -/
def unweld [Inhabited P] (baseVertices : List P)
    (tris : List (LegacyTriangle N U)) : UnweldState P N U :=
  tris.foldl (unweldStep baseVertices) ⟨[], [], [], []⟩

/-- The `j`-th reconstructed output vertex: its position, normal and UV. -/
def outVertex [Inhabited P] [Inhabited N] [Inhabited U]
    (st : UnweldState P N U) (j : Nat) : P × N × U :=
  (st.vertices.getD j default, st.normals.getD j default, st.uvs.getD j default)

/-! ## Export failure handling (msh.py lines 1385-1472, ani.py lines 673-708) -/

/-- One step of writing to an open output file: `some chunk` appends bytes,
`none` raises an exception at that point. -/
def WriteStep : Type := Option (List Nat)

/-- Running a sequence of write steps over a freshly opened file: `Except.ok`
with the full bytes on success, `Except.error` with the bytes already written
when a step raises (those bytes are in the file when the stream is closed). -/
def runWriteSteps (steps : List WriteStep) : Except (List Nat) (List Nat) :=
  steps.foldl
    (fun acc step =>
      match acc, step with
      | Except.error e, _ => Except.error e
      | Except.ok written, some chunk => Except.ok (written ++ chunk)
      | Except.ok written, none => Except.error written)
    (Except.ok [])

/-- msh.py lines 1385-1468: `__export_mesh` writes inside `try`; on an
exception it closes the file, removes the partially written file
(`os.remove(export_file_path)`, line 1465) and returns, so nothing remains on
disk (`none`). -/
def mshExportFileOnDisk (steps : List WriteStep) : Option (List Nat) :=
  match runWriteSteps steps with
  | Except.ok bytes => some bytes
  | Except.error _ => none

/-- ani.py lines 673-708: `export_action` writes inside `with open(...)` with
no exception handler; on a failure the `with` block closes the file but nothing
removes it, so the partially written bytes remain on disk. -/
def aniExportFileOnDisk (steps : List WriteStep) : Option (List Nat) :=
  match runWriteSteps steps with
  | Except.ok bytes => some bytes
  | Except.error partialBytes => some partialBytes

/-- msh.py lines 937-1474: the per-collection export loop calls
`__export_mesh`, whose exception handlers return normally, so every file of
the batch is processed regardless of earlier failures. -/
def mshExportBatch (batch : List (List WriteStep)) : List (Option (List Nat)) :=
  batch.map mshExportFileOnDisk

/-- ani.py lines 432-437: `execute` calls `export_action` once per action with
no handler around the call, so an exception raised while writing one file
propagates and aborts the remainder of the batch.  The result lists the
on-disk outcome of each file actually processed. -/
def aniExportBatch : List (List WriteStep) → List (Option (List Nat))
  | [] => []
  | steps :: rest =>
    match runWriteSteps steps with
    | Except.ok bytes => some bytes :: aniExportBatch rest
    | Except.error partialBytes => [some partialBytes]

/-! ## ANI import/export round-trip (ani.py) -/

/-- One ANI target as parsed by ani.py lines 94-129: fixed-width name, the two
span fields (`frame_amount`, line 97, and `frame_counts`, line 102), and the
four keyframe tracks (value, tick); parametrised over the decoded
rotation/position/scale value types. -/
structure AniTarget (R P S : Type _) where
  name : String
  frameAmount : Nat
  frameCounts : Nat
  rotationFrames : List (R × Nat)
  positionFrames : List (P × Nat)
  scaleFrames : List (S × Nat)
  unknownFrames : List (ℚ × Nat)

/-- What an object-level target inserts into the Blender action, ani.py lines
206-248: rotation, position and scale keyframes at frame `tick / FRAME_SCALE`
(the rotation passed through the object-space conversion `conj`, line 226).
No keyframes are inserted for the unknown track and the two span fields are
not stored anywhere, so neither appears in this record. -/
structure ImportedActionData (R P S : Type _) where
  rotationKeys : List (R × ℚ)
  positionKeys : List (P × ℚ)
  scaleKeys : List (S × ℚ)

/-- ani.py lines 206-248: the scene data stored for one imported target. -/
def importTargetToAction (conj : R → R) (t : AniTarget R P S) :
    ImportedActionData R P S :=
  { rotationKeys := t.rotationFrames.map (fun rk => (conj rk.1, decodeTick rk.2)),
    positionKeys := t.positionFrames.map (fun pk => (pk.1, decodeTick pk.2)),
    scaleKeys := t.scaleFrames.map (fun sk => (sk.1, decodeTick sk.2)) }

/-- ani.py lines 203 and 219-302: `highest_frame` starts at 0 and is raised to
every decoded keyframe frame of the rotation, position and scale tracks; line
305 stores it as the action's frame-range end. -/
def highestFrame (t : AniTarget R P S) : ℚ :=
  ((t.rotationFrames.map Prod.snd ++ t.positionFrames.map Prod.snd
      ++ t.scaleFrames.map Prod.snd).map decodeTick).foldl max 0

/-- ani.py lines 476-484 and 676-679: export derives `total_frames =
int(last_frame)` from the action's frame range (`int` truncates; the frame
range end is nonnegative, so this is the floor) and writes the two per-target
header fields as `total_frames` and `total_frames * FRAME_SCALE`. -/
def exportTargetHeader (lastFrame : ℚ) : Nat × Nat :=
  let totalFrames := ⌊lastFrame⌋.toNat
  (totalFrames, totalFrames * FRAME_SCALE)

/-- ani.py lines 495-496, 526, 625 and 703-708: the unknown-track section
written per target.  `export_unknown_keyframe_counts` only ever has `0`
appended (lines 526 and 625) and `export_unknown_keyframes` is created empty
(line 496) and never assigned to, so its `.get` is always `None` and no
(value, tick) pairs are written. -/
def exportUnknownTrack : Nat × List (ℚ × Nat) := (0, [])

/-! ## MSH reserved/unknown object fields (msh.py lines 537-550, 1407-1411) -/

/-- The reserved/unknown fixed-size fields of one MSH object record as read by
msh.py lines 537-550: one unconverted 3-float vector (`unknown_float3_1`), two
uint32 flags (`unknown_flags_1`), the uint32 weight-model-type, a second
unconverted 3-float vector (`unknown_float3_2`), a trailing float
(`unknown_float_1`), and 31 reserved bytes (skipped, line 550). -/
structure MshReservedFields where
  unknownFloat3_1 : ℚ × ℚ × ℚ
  unknownFlags1 : Nat × Nat
  weightModelType : Nat
  unknownFloat3_2 : ℚ × ℚ × ℚ
  unknownFloat1 : ℚ
  reserved31 : List Nat
deriving DecidableEq

/-- msh.py lines 1407-1411: for every exported object the writer emits 36 zero
bytes (the two bounding vectors and the first unknown vector), the constants
`1` and `256` for the two flags, `1` for the weight-model-type, then 47 zero
bytes (second unknown vector, trailing float, 31 reserved bytes). -/
def exportReservedFields : MshReservedFields :=
  { unknownFloat3_1 := (0, 0, 0),
    unknownFlags1 := (1, 256),
    weightModelType := 1,
    unknownFloat3_2 := (0, 0, 0),
    unknownFloat1 := 0,
    reserved31 := List.replicate 31 0 }

/-- Import (msh.py lines 537-550) binds the reserved fields to local variables
that are never stored on the created Blender object, so an import-then-export
round trip writes `exportReservedFields` whatever was read. -/
def mshReservedRoundTrip (_readFields : MshReservedFields) : MshReservedFields :=
  exportReservedFields

/-! ## Parent sentinel handling (msh.py lines 515-517, 798-813, 1401-1421) -/

/-- Modelled from the spec: `SkeletonData.INVALID_NAME` is defined in
`bn_skeleton.py`, which is not among the codec sources; the spec (§3) calls it
the sentinel "no parent" / "no bone" name.  Its concrete value is immaterial
below: the embedded code only ever compares names against it. -/
def INVALID_NAME : String := "None"

/-- msh.py lines 515-517: `if weight_amount != 0: parent_name =
SkeletonData.INVALID_NAME` — the parent name read from the file is replaced by
the sentinel for weighted meshes, before any parenting is applied. -/
def importedParentName (fileParentName : String) (weightAmount : Nat) : String :=
  if weightAmount ≠ 0 then INVALID_NAME else fileParentName

/-- msh.py lines 798-813: a parent is applied only when the parent name is not
the sentinel; `none` means the object is left unparented. -/
def appliedParent (parentName : String) : Option String :=
  if parentName ≠ INVALID_NAME then some parentName else none

/-- msh.py lines 1401-1404: export writes the accumulated weight amount only
for objects whose parent name is the sentinel, and `0` otherwise. -/
def writtenWeightAmount (parentName : String) (weightAmount : Nat) : Nat :=
  if parentName = INVALID_NAME then weightAmount else 0

/-- msh.py lines 1417-1421 (MESH08 per-vertex data): export writes the vertex's
actual four bone indices only when the object's parent name is the sentinel,
and the constant `(-1, -1, -1, 0)` otherwise. -/
def writtenBoneIndices (parentName : String)
    (uniqueBoneIndices : Int × Int × Int × Int) : Int × Int × Int × Int :=
  if parentName = INVALID_NAME then uniqueBoneIndices else (-1, -1, -1, 0)

end Spec2Proof

namespace Spec2Proof

/-- Helper: concatenating the first `n` chunks of 21845 triangles recovers the
whole list, provided `n` chunks suffice to cover it. -/
theorem join_splitChunk {α : Type _} :
    ∀ (n : Nat) (l : List α), l.length ≤ 21845 * n →
      ((List.range n).map (fun k => splitChunk l k)).flatten = l := by
  intro n
  induction n with
  | zero =>
    intro l hl
    simp at hl
    simp [hl]
  | succ n ih =>
    intro l hl
    rw [List.range_succ_eq_map]
    simp only [List.map_cons, List.map_map, List.flatten_cons]
    have h0 : splitChunk l 0 = l.take 21845 := by
      simp [splitChunk]
    have hshift : ∀ k : Nat, splitChunk l (k + 1) = splitChunk (l.drop 21845) k := by
      intro k
      simp only [splitChunk, List.drop_drop]
      congr 1
      ring_nf
    have hmap : (List.range n).map ((fun k => splitChunk l k) ∘ Nat.succ)
        = (List.range n).map (fun k => splitChunk (l.drop 21845) k) := by
      apply List.map_congr_left
      intro k _
      simpa using hshift k
    rw [h0, hmap, ih (l.drop 21845) (by simp; omega)]
    exact List.take_append_drop 21845 l

/-- Helper: `maximumSplitAmount` chunks of 21845 triangles cover the whole
triangle list. -/
theorem length_le_maximumSplitAmount {α : Type _} (l : List α) :
    l.length ≤ 21845 * maximumSplitAmount (l.length * 3) := by
  unfold maximumSplitAmount
  have h1 := Nat.div_add_mod (l.length * 3 + 65534) 65535
  have h2 : (l.length * 3 + 65534) % 65535 < 65535 :=
    Nat.mod_lt _ (by norm_num)
  omega

/-- Claim C1: a material group whose triangle count times 3 is at most 65535 is
emitted as exactly one mesh object with the unsuffixed group name; otherwise
the triangles are partitioned in original order into chunks of 21845 triangles,
every emitted object's index count (triangles times 3) is at most 65535, and
the objects are named `base`, `base_1`, `base_2`, ... in chunk order. -/
theorem msh_split_boundary {α : Type _} (tris : List α) (base : String) :
    (tris.length * 3 ≤ 65535 → exportMeshChunks tris base = [(base, tris)]) ∧
    (65535 < tris.length * 3 →
      (exportMeshChunks tris base).length = maximumSplitAmount (tris.length * 3) ∧
      ((exportMeshChunks tris base).map Prod.snd).flatten = tris ∧
      (∀ e ∈ exportMeshChunks tris base, e.2.length * 3 ≤ 65535) ∧
      (exportMeshChunks tris base).map Prod.fst =
        (List.range (maximumSplitAmount (tris.length * 3))).map (splitObjectName base)) := by
  constructor
  · intro h
    simp [exportMeshChunks, h]
  · intro h
    have hn : ¬ tris.length * 3 ≤ 65535 := not_le.mpr h
    refine ⟨?_, ?_, ?_, ?_⟩
    · simp [exportMeshChunks, hn]
    · rw [exportMeshChunks, if_neg hn, List.map_map]
      have : (Prod.snd ∘ fun k => (splitObjectName base k, splitChunk tris k))
          = fun k => splitChunk tris k := rfl
      rw [this]
      exact join_splitChunk _ tris (length_le_maximumSplitAmount tris)
    · intro e he
      rw [exportMeshChunks, if_neg hn] at he
      obtain ⟨k, _, hek⟩ := List.mem_map.mp he
      have : e.2 = splitChunk tris k := by rw [← hek]
      rw [this, splitChunk]
      have : ((tris.drop (21845 * k)).take 21845).length ≤ 21845 :=
        le_trans (List.length_take_le _ _) (le_refl _)
      omega
    · rw [exportMeshChunks, if_neg hn, List.map_map]
      rfl

/-- Claim C1, witness: a group of exactly 21845 triangles (65535 indices)
yields one object; a group of 21846 triangles yields exactly two objects named
`Foo` and `Foo_1`. -/
theorem msh_split_boundary_witness :
    exportMeshChunks (List.replicate 21845 (0 : Nat)) "Bar"
      = [("Bar", List.replicate 21845 (0 : Nat))] ∧
    (exportMeshChunks (List.replicate 21846 (0 : Nat)) "Foo").length = 2 ∧
    (exportMeshChunks (List.replicate 21846 (0 : Nat)) "Foo").map Prod.fst
      = ["Foo", "Foo_1"] := by
  have h1 := (msh_split_boundary (List.replicate 21845 (0 : Nat)) "Bar").1
    (by simp only [List.length_replicate]; norm_num)
  have h2 := (msh_split_boundary (List.replicate 21846 (0 : Nat)) "Foo").2
    (by simp only [List.length_replicate]; norm_num)
  have hn : maximumSplitAmount ((List.replicate 21846 (0 : Nat)).length * 3) = 2 := by
    simp only [List.length_replicate]
    norm_num [maximumSplitAmount]
  refine ⟨h1, ?_, ?_⟩
  · rw [h2.1, hn]
  · rw [h2.2.2.2, hn]
    rfl

/-- Helper: closed form of the legacy unwelding loop starting from an arbitrary
accumulator state. -/
theorem unweld_foldl {P N U : Type _} [Inhabited P] (bv : List P) :
    ∀ (tris : List (LegacyTriangle N U)) (st : UnweldState P N U),
      tris.foldl (unweldStep bv) st =
        { vertices := st.vertices ++ tris.flatMap
            (fun t => [bv.getD t.i0 default, bv.getD t.i1 default,
              bv.getD t.i2 default]),
          normals := st.normals ++ tris.flatMap (fun t => [t.n0, t.n1, t.n2]),
          uvs := st.uvs ++ tris.flatMap (fun t => [t.uv0, t.uv1, t.uv2]),
          triangles := st.triangles ++ (List.range tris.length).map
            (fun i => (st.vertices.length + 3 * i, st.vertices.length + 3 * i + 1,
              st.vertices.length + 3 * i + 2)) } := by
  intro tris
  induction tris with
  | nil =>
    intro st
    simp
  | cons t ts ih =>
    intro st
    rw [List.foldl_cons, ih (unweldStep bv st t)]
    have hlen : (unweldStep bv st t).vertices.length = st.vertices.length + 3 := by
      simp [unweldStep]
    have htris : (List.range (ts.length + 1)).map
        (fun i => (st.vertices.length + 3 * i, st.vertices.length + 3 * i + 1,
          st.vertices.length + 3 * i + 2))
        = (st.vertices.length, st.vertices.length + 1, st.vertices.length + 2) ::
          (List.range ts.length).map
            (fun i => (st.vertices.length + 3 + 3 * i, st.vertices.length + 3 + 3 * i + 1,
              st.vertices.length + 3 + 3 * i + 2)) := by
      rw [List.range_succ_eq_map, List.map_cons, List.map_map]
      refine List.cons_eq_cons.mpr ⟨by norm_num, ?_⟩
      apply List.map_congr_left
      intro i _
      simp only [Function.comp_apply, Prod.mk.injEq]
      omega
    simp only [unweldStep, hlen, UnweldState.mk.injEq]
    refine ⟨by simp, by simp, by simp, ?_⟩
    simp only [List.length_cons, htris]
    simp

/-- Claim C3: for every legacy (non-MESH08) mesh, each triangle corner produces
one brand-new output vertex whose position is copied from the referenced base
vertex and whose normal and UV are taken from that triangle corner, the
reconstructed triangles are renumbered so that the `i`-th triangle has indices
`(3i, 3i+1, 3i+2)`, and a triangle whose 3 corners reference the same base
vertex index but carry 3 distinct UVs produces exactly 3 distinct output
vertices sharing one position value. -/
theorem legacy_unweld {P N U : Type _} [Inhabited P] [Inhabited N] [Inhabited U]
    (bv : List P) (tris : List (LegacyTriangle N U)) :
    (unweld bv tris).vertices = tris.flatMap
      (fun t => [bv.getD t.i0 default, bv.getD t.i1 default, bv.getD t.i2 default]) ∧
    (unweld bv tris).normals = tris.flatMap (fun t => [t.n0, t.n1, t.n2]) ∧
    (unweld bv tris).uvs = tris.flatMap (fun t => [t.uv0, t.uv1, t.uv2]) ∧
    (unweld bv tris).triangles = (List.range tris.length).map
      (fun i => (3 * i, 3 * i + 1, 3 * i + 2)) ∧
    (∀ t : LegacyTriangle N U, t.i0 = t.i1 → t.i1 = t.i2 →
      t.uv0 ≠ t.uv1 → t.uv0 ≠ t.uv2 → t.uv1 ≠ t.uv2 →
      (unweld bv [t]).vertices =
        [bv.getD t.i0 default, bv.getD t.i0 default, bv.getD t.i0 default] ∧
      outVertex (unweld bv [t]) 0 ≠ outVertex (unweld bv [t]) 1 ∧
      outVertex (unweld bv [t]) 0 ≠ outVertex (unweld bv [t]) 2 ∧
      outVertex (unweld bv [t]) 1 ≠ outVertex (unweld bv [t]) 2) := by
  have hmain := unweld_foldl bv tris (⟨[], [], [], []⟩ : UnweldState P N U)
  refine ⟨?_, ?_, ?_, ?_, ?_⟩
  · rw [unweld, hmain]
    simp
  · rw [unweld, hmain]
    simp
  · rw [unweld, hmain]
    simp
  · rw [unweld, hmain]
    simp
  · intro t h01 h12 hu01 hu02 hu12
    have h1 : unweld bv [t] =
        ⟨[bv.getD t.i0 default, bv.getD t.i1 default, bv.getD t.i2 default],
          [t.n0, t.n1, t.n2], [t.uv0, t.uv1, t.uv2], [(0, 1, 2)]⟩ := by
      rw [unweld, unweld_foldl bv [t]]
      simp [List.range_succ]
    have e0 : outVertex (unweld bv [t]) 0 = (bv.getD t.i0 default, t.n0, t.uv0) := by
      rw [h1]; rfl
    have e1 : outVertex (unweld bv [t]) 1 = (bv.getD t.i1 default, t.n1, t.uv1) := by
      rw [h1]; rfl
    have e2 : outVertex (unweld bv [t]) 2 = (bv.getD t.i2 default, t.n2, t.uv2) := by
      rw [h1]; rfl
    refine ⟨?_, ?_, ?_, ?_⟩
    · rw [h1]
      rw [← h01, ← h12, ← h01]
    · rw [e0, e1]
      intro he
      exact hu01 (congrArg (fun x => x.2.2) he)
    · rw [e0, e2]
      intro he
      exact hu02 (congrArg (fun x => x.2.2) he)
    · rw [e1, e2]
      intro he
      exact hu12 (congrArg (fun x => x.2.2) he)

/-- Claim C3, witness: one concrete legacy triangle whose 3 corners all
reference base vertex 0 of `[7]` but carry UVs `10`, `11`, `12` produces 3
distinct output vertices all carrying position 7. -/
theorem legacy_unweld_witness :
    (unweld [(7 : Nat)] [(⟨0, 0, 0, 4, 5, 6, 10, 11, 12⟩ : LegacyTriangle Nat Nat)]).vertices
      = [7, 7, 7] ∧
    outVertex (unweld [(7 : Nat)] [(⟨0, 0, 0, 4, 5, 6, 10, 11, 12⟩ : LegacyTriangle Nat Nat)]) 0
      ≠ outVertex (unweld [(7 : Nat)] [(⟨0, 0, 0, 4, 5, 6, 10, 11, 12⟩ : LegacyTriangle Nat Nat)]) 1 := by
  have h := (legacy_unweld [(7 : Nat)]
    [(⟨0, 0, 0, 4, 5, 6, 10, 11, 12⟩ : LegacyTriangle Nat Nat)]).2.2.2.2
    ⟨0, 0, 0, 4, 5, 6, 10, 11, 12⟩ rfl rfl (by decide) (by decide) (by decide)
  exact ⟨h.1, h.2.1⟩

/-- Helper: the padded weight list produced by msh.py lines 568-578, before the
`sum < 1e-6` fallback check, always has the shape `[w0, w1, w2, implied]` with
the implied fourth weight given by the tolerance test. -/
theorem mesh08ImportWeights_eq (w0 w1 w2 : ℚ) :
    mesh08ImportWeights w0 w1 w2 =
      [w0, w1, w2,
        if w0 + w1 + w2 < 1 - WEIGHT_TOLERANCE then 1 - (w0 + w1 + w2) else 0] := by
  unfold mesh08ImportWeights
  by_cases h : w0 + w1 + w2 < 1 - WEIGHT_TOLERANCE
  · simp only [if_pos h]
    have hsum : ([w0, w1, w2, 1 - (w0 + w1 + w2)] : List ℚ).sum = 1 := by
      simp; ring
    simp [hsum]
    norm_num
  · simp only [if_neg h]
    have hge : 1 - WEIGHT_TOLERANCE ≤ w0 + w1 + w2 := le_of_not_lt h
    have hsum : ([w0, w1, w2] ++ List.replicate (4 - 3) (0 : ℚ)).sum
        = w0 + w1 + w2 := by simp; ring
    rw [show ([w0, w1, w2] : List ℚ).length = 3 from rfl]
    rw [if_neg]
    · simp [List.replicate]
    · rw [hsum]
      rw [WEIGHT_TOLERANCE] at hge
      intro hlt
      linarith

/-- Claim C2, counterexample: stored weights `[0, 0, 0]` do NOT import as
`[1, 0, 0, 0]`.  Because `0 < 1 - 1e-5`, msh.py line 573 appends the implied
fourth weight `1 - 0 = 1`, the padded list `[0,0,0,1]` sums to 1, so the
`sum < 1e-6` fallback of lines 576-577 never fires. -/
theorem mesh08_zero_weights_counterexample :
    mesh08ImportWeights 0 0 0 = [0, 0, 0, 1] ∧
    mesh08ImportWeights 0 0 0 ≠ [1, 0, 0, 0] := by
  rw [mesh08ImportWeights_eq]
  norm_num [WEIGHT_TOLERANCE]

/-- Claim C2 (amended): for every MESH08 vertex with weight data, the three
stored weights `w0, w1, w2` are extended with an implied fourth weight
`1 - (w0+w1+w2)` when their sum is below `1 - 1e-5`, and with `0` otherwise
(stored weights `[0.5, 0.3, 0.1]` yield a fourth weight of `0.1` and the four
weights sum to 1); when all stored weights are zero the resulting vector is
`[0, 0, 0, 1]`, i.e. full weight on the fourth (implied) influence slot, the
`[1,0,0,0]` fallback being unreachable.  The standard-format export path
applies the same implied-fourth rule. -/
theorem mesh08_implied_fourth_weight (w0 w1 w2 : ℚ) :
    mesh08ImportWeights w0 w1 w2 =
      [w0, w1, w2,
        if w0 + w1 + w2 < 1 - WEIGHT_TOLERANCE then 1 - (w0 + w1 + w2) else 0] ∧
    mesh08ImportWeights (1/2) (3/10) (1/10) = [1/2, 3/10, 1/10, 1/10] ∧
    (mesh08ImportWeights (1/2) (3/10) (1/10)).sum = 1 ∧
    mesh08ImportWeights 0 0 0 = [0, 0, 0, 1] ∧
    standardExportWeights w0 w1 w2 =
      (w0, w1, w2,
        if w0 + w1 + w2 < 1 - WEIGHT_TOLERANCE then 1 - (w0 + w1 + w2) else 0) := by
  refine ⟨mesh08ImportWeights_eq w0 w1 w2, ?_, ?_, ?_, ?_⟩
  · rw [mesh08ImportWeights_eq]; norm_num [WEIGHT_TOLERANCE]
  · rw [mesh08ImportWeights_eq]; norm_num [WEIGHT_TOLERANCE]
  · rw [mesh08ImportWeights_eq]; norm_num [WEIGHT_TOLERANCE]
  · unfold standardExportWeights
    by_cases h : w0 + w1 + w2 < 1 - WEIGHT_TOLERANCE
    · simp [h]
    · simp [h]

/-- Claim C8: ANI export stores a keyframe at integer frame `n` with tick value
`n * 160` (frame 5 is stored as tick 800), import maps a stored tick `t` back to
frame `t / 160` (tick 800 decodes to frame 5 exactly), and encoding any integer
frame and decoding it again is the identity. -/
theorem ani_tick_scaling_roundtrip (n : Nat) :
    decodeTick (encodeFrame n) = (n : ℚ) ∧
    encodeFrame 5 = 800 ∧
    decodeTick 800 = 5 := by
  refine ⟨?_, rfl, ?_⟩
  · simp [decodeTick, encodeFrame, FRAME_SCALE]
  · norm_num [decodeTick, FRAME_SCALE]

/-- Claim C4, counterexample: an ANI export whose writing fails partway leaves
the partially written bytes on disk (rather than no file), and the rest of the
batch is not processed. -/
theorem ani_export_partial_file_counterexample :
    aniExportFileOnDisk [some [1, 2], none] = some [1, 2] ∧
    aniExportFileOnDisk [some [1, 2], none] ≠ none ∧
    aniExportBatch [[some [1, 2], none], [some [3]]] = [some [1, 2]] := by
  refine ⟨rfl, by simp [aniExportFileOnDisk, runWriteSteps], rfl⟩

/-- Claim C4 (amended): an MSH export that fails partway through writing
removes the truncated file (no partial output remains) and the batch continues
with the next file; an ANI export has no such cleanup — a failure while
writing leaves the partially written bytes on disk. -/
theorem export_failure_cleanup (steps : List WriteStep) (e : List Nat)
    (h : runWriteSteps steps = Except.error e) :
    mshExportFileOnDisk steps = none ∧
    aniExportFileOnDisk steps = some e ∧
    (∀ batch : List (List WriteStep),
      mshExportBatch (steps :: batch) = none :: batch.map mshExportFileOnDisk) := by
  refine ⟨?_, ?_, ?_⟩
  · rw [mshExportFileOnDisk, h]
  · rw [aniExportFileOnDisk, h]
  · intro batch
    rw [mshExportBatch, List.map_cons]
    rw [show mshExportFileOnDisk steps = none from by rw [mshExportFileOnDisk, h]]

/-- Claim C4, witness: concrete failing write sequence. -/
theorem export_failure_cleanup_witness :
    mshExportFileOnDisk [some [1, 2], none] = none ∧
    aniExportFileOnDisk [some [1, 2], none] = some [1, 2] :=
  ⟨(export_failure_cleanup [some [1, 2], none] [1, 2] rfl).1,
   (export_failure_cleanup [some [1, 2], none] [1, 2] rfl).2.1⟩

/-- Claim C5, counterexample: a target carrying one decoded unknown-track pair
is not re-encoded unchanged — the exported unknown track is always empty. -/
theorem ani_unknown_track_counterexample :
    exportUnknownTrack ≠
      ((⟨"Bip01", 5, 800, [], [], [], [((1 : ℚ) / 2, 0)]⟩ :
          AniTarget Unit Unit Unit).unknownFrames.length,
        (⟨"Bip01", 5, 800, [], [], [], [((1 : ℚ) / 2, 0)]⟩ :
          AniTarget Unit Unit Unit).unknownFrames) := by
  simp [exportUnknownTrack]

/-- Claim C5 (amended): the unknown-scalar track is decoded at import but
discarded — nothing that import stores in the scene depends on it — and export
always writes an empty unknown track (count 0, no pairs) for every target. -/
theorem ani_unknown_track_dropped {R P S : Type _} (conj : R → R)
    (t : AniTarget R P S) (unk : List (ℚ × Nat)) :
    importTargetToAction conj { t with unknownFrames := unk }
      = importTargetToAction conj t ∧
    highestFrame { t with unknownFrames := unk } = highestFrame t ∧
    exportUnknownTrack = (0, []) :=
  ⟨rfl, rfl, rfl⟩

/-- Claim C6, counterexample: a target whose declared span fields read 7 and
12345 but whose keyframes reach tick 800 (frame 5) is exported with header
fields `(5, 800)` — neither raw imported value is written back. -/
theorem ani_frame_span_counterexample :
    exportTargetHeader
        (highestFrame (⟨"Bip01", 7, 12345, [(Unit.unit, 800)], [], [], []⟩ :
          AniTarget Unit Unit Unit)) = (5, 800) ∧
    exportTargetHeader
        (highestFrame (⟨"Bip01", 7, 12345, [(Unit.unit, 800)], [], [], []⟩ :
          AniTarget Unit Unit Unit)) ≠ (7, 12345) ∧
    exportTargetHeader
        (highestFrame (⟨"Bip01", 7, 12345, [(Unit.unit, 800)], [], [], []⟩ :
          AniTarget Unit Unit Unit)) ≠ (12345, 7) := by
  have hf : highestFrame (⟨"Bip01", 7, 12345, [(Unit.unit, 800)], [], [], []⟩ :
      AniTarget Unit Unit Unit) = 5 := by
    norm_num [highestFrame, decodeTick, FRAME_SCALE]
  rw [hf]
  norm_num [exportTargetHeader, FRAME_SCALE]
  decide

/-- Claim C6 (amended): the declared span fields read at import are discarded
— the exported header does not depend on them — and export recomputes both
header fields from the action's frame range as `(⌊last⌋, ⌊last⌋ * 160)`. -/
theorem ani_frame_span_recomputed {R P S : Type _} (t : AniTarget R P S)
    (fa fc : Nat) :
    exportTargetHeader (highestFrame t)
      = (⌊highestFrame t⌋.toNat, ⌊highestFrame t⌋.toNat * FRAME_SCALE) ∧
    exportTargetHeader
        (highestFrame { t with frameAmount := fa, frameCounts := fc })
      = exportTargetHeader (highestFrame t) :=
  ⟨rfl, rfl⟩

/-- Claim C7, counterexample: an object record whose reserved fields read as
nonzero values is not written back byte-for-byte — export emits the fixed
constants instead. -/
theorem msh_reserved_fields_counterexample :
    mshReservedRoundTrip
        ⟨(1, 2, 3), (5, 7), 2, (4, 5, 6), 9, List.replicate 31 3⟩
      ≠ ⟨(1, 2, 3), (5, 7), 2, (4, 5, 6), 9, List.replicate 31 3⟩ := by
  simp [mshReservedRoundTrip, exportReservedFields]

/-- Claim C7 (amended): the reserved/unknown fixed-size fields read at import
are discarded, and export writes fixed constants (zero vectors, flags
`(1, 256)`, weight-model-type `1`, zero float, 31 zero bytes); a record
round-trips byte-for-byte exactly when it already equals those constants. -/
theorem msh_reserved_fields_constant (r : MshReservedFields) :
    mshReservedRoundTrip r = exportReservedFields ∧
    (mshReservedRoundTrip r = r ↔ r = exportReservedFields) := by
  refine ⟨rfl, ?_⟩
  rw [mshReservedRoundTrip]
  exact eq_comm

/-- Claim C9: for every object record whose weight count field is nonzero, the
parent name read from the file is replaced by the no-parent sentinel before
any parenting is applied, so a weighted mesh is never parented to the object
or bone named in the file. -/
theorem weighted_mesh_forces_no_parent (fileParentName : String)
    (weightAmount : Nat) (h : weightAmount ≠ 0) :
    importedParentName fileParentName weightAmount = INVALID_NAME ∧
    appliedParent (importedParentName fileParentName weightAmount) = none := by
  rw [importedParentName, if_pos h]
  exact ⟨rfl, by rw [appliedParent]; simp⟩

/-- Claim C9, witness: a file parent name `Bip01` with weight count 3 ends up
unparented. -/
theorem weighted_mesh_forces_no_parent_witness :
    (3 : Nat) ≠ 0 ∧
    importedParentName "Bip01" 3 = INVALID_NAME ∧
    appliedParent (importedParentName "Bip01" 3) = none :=
  ⟨by decide, (weighted_mesh_forces_no_parent "Bip01" 3 (by decide)).1,
    (weighted_mesh_forces_no_parent "Bip01" 3 (by decide)).2⟩

/-- Claim C10: every exported object whose parent name is not the no-parent
sentinel has its weight count field written as 0 regardless of the accumulated
weight amount, and (MESH08) every vertex's four bone indices written as
`(-1, -1, -1, 0)` regardless of the vertex's actual bone assignments. -/
theorem parented_object_weights_zeroed (parentName : String)
    (weightAmount : Nat) (idx : Int × Int × Int × Int)
    (h : parentName ≠ INVALID_NAME) :
    writtenWeightAmount parentName weightAmount = 0 ∧
    writtenBoneIndices parentName idx = (-1, -1, -1, 0) := by
  rw [writtenWeightAmount, if_neg h, writtenBoneIndices, if_neg h]
  exact ⟨rfl, rfl⟩

/-- Claim C10, witness: an object parented to `Bip01` with weight amount 7 and
a vertex with bone indices `(2, 3, 4, 5)`. -/
theorem parented_object_weights_zeroed_witness :
    ("Bip01" : String) ≠ INVALID_NAME ∧
    writtenWeightAmount "Bip01" 7 = 0 ∧
    writtenBoneIndices "Bip01" (2, 3, 4, 5) = (-1, -1, -1, 0) :=
  ⟨by decide,
    (parented_object_weights_zeroed "Bip01" 7 (2, 3, 4, 5) (by decide)).1,
    (parented_object_weights_zeroed "Bip01" 7 (2, 3, 4, 5) (by decide)).2⟩

end Spec2Proof
